import Mathlib

/-!
# Verification of the `@pusher/push-notifications-server` type surface

Shallow embedding of the data model declared in `src/index.d.ts` and of the
request-builder/validator behaviour the specification describes for it.

The repository ships only a TypeScript declaration file: the interfaces and
the class signature.  The data model below (`PublishRequest`, `ApnsPayload`,
`ApsPayload`, `AlertPayload`, `FcmPayload`, `FcmNotificationPayload`,
`PublishResponse`, `Token`, `Options`) is translated directly from those
declarations.  The executable behaviour (validation, serialization, the
outbound call, token generation) is not present in the sources and is
modelled from the specification; each such definition says so in its doc
comment.
-/

namespace PushNotifications

/-- A JSON value, the wire format of request and response bodies. -/
inductive Json where
  | null : Json
  | bool (b : Bool) : Json
  | num (n : Int) : Json
  | str (s : String) : Json
  | arr (elems : List Json) : Json
  | obj (fields : List (String × Json)) : Json
deriving Repr

/-- `interface Options` (src/index.d.ts lines 3–7): `instanceId` and
`secretKey` required, `endpoint` optional. -/
structure Options where
  instanceId : String
  secretKey : String
  endpoint : Option String := none
deriving Repr, DecidableEq

/-- `interface FcmNotificationPayload` (src/index.d.ts lines 44–102):
every field optional. -/
structure FcmNotificationPayload where
  title : Option String := none
  body : Option String := none
  android_channel_id : Option String := none
  icon : Option String := none
  sound : Option String := none
  tag : Option String := none
  color : Option String := none
  click_action : Option String := none
  body_loc_key : Option String := none
  body_loc_args : Option (List String) := none
  title_loc_key : Option String := none
  title_loc_args : Option (List String) := none
deriving Repr

/-- `interface FcmPayload` (src/index.d.ts lines 32–41): optional
`notification` and optional opaque `data` object. -/
structure FcmPayload where
  notification : Option FcmNotificationPayload := none
  data : Option (List (String × Json)) := none
deriving Repr

/-- `interface AlertPayload` (src/index.d.ts lines 144–184).
`title` and `body` are required strings.  `title-loc-args` has type
`string[] | null` and `action-loc-key` has type `string | null`, both
optional: the outer `Option` is field absence, the inner `Option` is an
explicit `null`.  The remaining fields admit only their stated type or
absence. -/
structure AlertPayload where
  title : String
  body : String
  titleLocKey : Option String := none
  titleLocArgs : Option (Option (List String)) := none
  actionLocKey : Option (Option String) := none
  locKey : Option String := none
  locArgs : Option (List String) := none
  launchImage : Option String := none
deriving Repr, DecidableEq

/-- `interface ApsPayload` (src/index.d.ts lines 110–142): all fields
optional; `alert` is `string | AlertPayload`; `badge` is a number;
`content-available` is declared as a string in the source. -/
structure ApsPayload where
  alert : Option (String ⊕ AlertPayload) := none
  badge : Option Int := none
  sound : Option String := none
  contentAvailable : Option String := none
  category : Option String := none
  threadId : Option String := none
deriving Repr

/-- `interface ApnsPayload` (src/index.d.ts lines 104–106): a single
required field `aps`. -/
structure ApnsPayload where
  aps : ApsPayload
deriving Repr

/-- `type PublishRequest` (src/index.d.ts lines 27–30): the union of
`PublishRequestWithApns`, `PublishRequestWithFcm` and
`PublishRequestWithApnsAndFcm`, each extending `PublishRequestBase`
(optional `webhookUrl`). -/
inductive PublishRequest where
  | withApns (webhookUrl : Option String) (apns : ApnsPayload) : PublishRequest
  | withFcm (webhookUrl : Option String) (fcm : FcmPayload) : PublishRequest
  | withApnsAndFcm (webhookUrl : Option String) (apns : ApnsPayload)
      (fcm : FcmPayload) : PublishRequest
deriving Repr

/-- The runtime shape of a publish request object: TypeScript types are
erased at runtime, so the builder receives an object in which each of
`webhookUrl`, `apns` and `fcm` may independently be absent.  This is the
value the runtime validator inspects. -/
structure RawPublishRequest where
  webhookUrl : Option String := none
  apns : Option ApnsPayload := none
  fcm : Option FcmPayload := none
deriving Repr

/-- Erase a `PublishRequest` union value to its runtime object. -/
def PublishRequest.toRaw : PublishRequest → RawPublishRequest
  | .withApns w a => { webhookUrl := w, apns := some a, fcm := none }
  | .withFcm w f => { webhookUrl := w, apns := none, fcm := some f }
  | .withApnsAndFcm w a f => { webhookUrl := w, apns := some a, fcm := some f }

/-- `interface PublishResponse` (src/index.d.ts lines 186–191): a single
`publishId` string. -/
structure PublishResponse where
  publishId : String
deriving Repr, DecidableEq

/-- `type Token = string` (src/index.d.ts line 193). -/
def Token := String
deriving Repr, DecidableEq

/-- Modelled from the spec: the error taxonomy of §7 — `InvalidArgument`
(local pre-flight validation failure), `TransportError` (call could not
complete), `ApiError` (non-success status, carrying the status code and
the service's message). -/
inductive PushError where
  | invalidArgument (msg : String) : PushError
  | transportError (msg : String) : PushError
  | apiError (status : Nat) (msg : String) : PushError
deriving Repr, DecidableEq

/-! ## Serialization to the wire format

Modelled from the spec (§6): JSON request bodies of shape
`{ "interests": [...] | "users": [...], "apns"?: …, "fcm"?: …,
"webhookUrl"?: … }`, with absent optional fields omitted. -/

/-- A field that is emitted only when present. -/
def optField (name : String) : Option Json → List (String × Json)
  | none => []
  | some j => [(name, j)]

/-- An optional string field. -/
def optStrField (name : String) (v : Option String) : List (String × Json) :=
  optField name (v.map Json.str)

/-- An optional string-array field. -/
def optStrListField (name : String) (v : Option (List String)) :
    List (String × Json) :=
  optField name (v.map fun xs => Json.arr (xs.map Json.str))

/-- An optional field whose value may be an explicit `null`
(`T | null` in the declaration). -/
def optNullableField (name : String) (enc : α → Json) (v : Option (Option α)) :
    List (String × Json) :=
  optField name (v.map fun inner => (inner.map enc).getD Json.null)

/-- Modelled from the spec: serialize an `AlertPayload` with the wire keys
of src/index.d.ts lines 144–184, required `title`/`body` first, optional
fields omitted when absent and emitted as `null` when explicitly null. -/
def serializeAlert (a : AlertPayload) : Json :=
  .obj (("title", .str a.title) :: ("body", .str a.body) ::
    (optStrField "title-loc-key" a.titleLocKey ++
     optNullableField "title-loc-args"
       (fun xs => Json.arr (xs.map Json.str)) a.titleLocArgs ++
     optNullableField "action-loc-key" Json.str a.actionLocKey ++
     optStrField "loc-key" a.locKey ++
     optStrListField "loc-args" a.locArgs ++
     optStrField "launch-image" a.launchImage))

/-- Modelled from the spec: serialize the `alert` field, which is either a
plain string or a structured `AlertPayload`. -/
def serializeAlertField : String ⊕ AlertPayload → Json
  | .inl s => .str s
  | .inr a => serializeAlert a

/-- Modelled from the spec: serialize an `ApsPayload`, all fields optional. -/
def serializeAps (p : ApsPayload) : Json :=
  .obj (optField "alert" (p.alert.map serializeAlertField) ++
    optField "badge" (p.badge.map Json.num) ++
    optStrField "sound" p.sound ++
    optStrField "content-available" p.contentAvailable ++
    optStrField "category" p.category ++
    optStrField "thread-id" p.threadId)

/-- Modelled from the spec: serialize an `ApnsPayload`, a single `aps`. -/
def serializeApns (p : ApnsPayload) : Json :=
  .obj [("aps", serializeAps p.aps)]

/-- Modelled from the spec: serialize an `FcmNotificationPayload`. -/
def serializeFcmNotification (n : FcmNotificationPayload) : Json :=
  .obj (optStrField "title" n.title ++ optStrField "body" n.body ++
    optStrField "android_channel_id" n.android_channel_id ++
    optStrField "icon" n.icon ++ optStrField "sound" n.sound ++
    optStrField "tag" n.tag ++ optStrField "color" n.color ++
    optStrField "click_action" n.click_action ++
    optStrField "body_loc_key" n.body_loc_key ++
    optStrListField "body_loc_args" n.body_loc_args ++
    optStrField "title_loc_key" n.title_loc_key ++
    optStrListField "title_loc_args" n.title_loc_args)

/-- Modelled from the spec: serialize an `FcmPayload`; `data` is passed
through unmodified. -/
def serializeFcm (p : FcmPayload) : Json :=
  .obj (optField "notification" (p.notification.map serializeFcmNotification) ++
    optField "data" (p.data.map Json.obj))

/-- Modelled from the spec: the publish-request body with the selector
under the given key (`"interests"` or `"users"`) followed by the optional
`apns`, `fcm` and `webhookUrl` fields. -/
def serializeBody (selectorKey : String) (selector : List String)
    (r : RawPublishRequest) : Json :=
  .obj ((selectorKey, .arr (selector.map Json.str)) ::
    (optField "apns" (r.apns.map serializeApns) ++
     optField "fcm" (r.fcm.map serializeFcm) ++
     optStrField "webhookUrl" r.webhookUrl))

/-! ## Parsing back from the wire format

The parsers below are the value-acceptance semantics of the declared
interfaces: a JSON value is accepted exactly when it inhabits the
TypeScript type of src/index.d.ts. -/

/-- First value bound to `key` in an object's field list. -/
def getF : List (String × Json) → String → Option Json
  | [], _ => none
  | (k, v) :: rest, key => if k = key then some v else getF rest key

/-- Accept an absent field or a string (`field?: string`). -/
def parseOptStr : Option Json → Option (Option String)
  | none => some none
  | some (.str s) => some (some s)
  | some _ => none

/-- Accept a homogeneous array of strings. -/
def parseStrList : List Json → Option (List String)
  | [] => some []
  | .str s :: rest => (parseStrList rest).map (s :: ·)
  | _ => none

/-- Accept an absent field or a string array (`field?: string[]`). -/
def parseOptStrList : Option Json → Option (Option (List String))
  | none => some none
  | some (.arr xs) => (parseStrList xs).map some
  | some _ => none

/-- Accept an absent field, an explicit `null`, or a string
(`field?: string | null`). -/
def parseOptStrOrNull : Option Json → Option (Option (Option String))
  | none => some none
  | some .null => some (some none)
  | some (.str s) => some (some (some s))
  | some _ => none

/-- Accept an absent field, an explicit `null`, or a string array
(`field?: string[] | null`). -/
def parseOptStrListOrNull : Option Json → Option (Option (Option (List String)))
  | none => some none
  | some .null => some (some none)
  | some (.arr xs) => (parseStrList xs).map (some ∘ some)
  | some _ => none

/-- The value-acceptance semantics of `interface AlertPayload`
(src/index.d.ts lines 144–184): required string `title` and `body`;
`title-loc-key`, `loc-key`, `launch-image` optional strings; `loc-args`
an optional string array; `title-loc-args` optionally `string[] | null`;
`action-loc-key` optionally `string | null`. -/
def parseAlert : Json → Option AlertPayload
  | .obj fs =>
    match getF fs "title", getF fs "body" with
    | some (.str t), some (.str b) =>
      match parseOptStr (getF fs "title-loc-key"),
        parseOptStrListOrNull (getF fs "title-loc-args"),
        parseOptStrOrNull (getF fs "action-loc-key"),
        parseOptStr (getF fs "loc-key"),
        parseOptStrList (getF fs "loc-args"),
        parseOptStr (getF fs "launch-image") with
      | some tlk, some tla, some alk, some lk, some la, some li =>
        some ⟨t, b, tlk, tla, alk, lk, la, li⟩
      | _, _, _, _, _, _ => none
    | _, _ => none
  | _ => none

/-- The `alert` field: a string or a structured `AlertPayload`
(src/index.d.ts line 114). -/
def parseAlertField (j : Json) : Option (String ⊕ AlertPayload) :=
  match j with
  | .str s => some (.inl s)
  | _ => (parseAlert j).map .inr

/-- The value-acceptance semantics of `interface ApsPayload`
(src/index.d.ts lines 110–142). -/
def parseAps : Json → Option ApsPayload
  | .obj fs =>
    match (getF fs "alert").elim (some none) (fun j => (parseAlertField j).map some),
      (getF fs "badge").elim (some none)
        (fun j => match j with | .num n => some (some n) | _ => none),
      parseOptStr (getF fs "sound"),
      parseOptStr (getF fs "content-available"),
      parseOptStr (getF fs "category"),
      parseOptStr (getF fs "thread-id") with
    | some al, some ba, some so, some ca, some cat, some tid =>
      some ⟨al, ba, so, ca, cat, tid⟩
    | _, _, _, _, _, _ => none
  | _ => none

/-- The value-acceptance semantics of `interface ApnsPayload`
(src/index.d.ts lines 104–106): a required `aps`. -/
def parseApns : Json → Option ApnsPayload
  | .obj fs =>
    match getF fs "aps" with
    | some j => (parseAps j).map ApnsPayload.mk
    | none => none
  | _ => none

/-- Extract and parse the optional `apns` payload of a serialized publish
body: `some none` when the field is absent, `some (some p)` when present
and well-formed, `none` when present but ill-formed. -/
def parseBodyApns : Json → Option (Option ApnsPayload)
  | .obj fs =>
    match getF fs "apns" with
    | none => some none
    | some j => (parseApns j).map some
  | _ => none

/-! ## The outbound-call effect -/

/-- Modelled from the spec: the observable shape of one asynchronous
operation (§4.1, §5).  It either aborts locally before any network
activity (`abort`), or issues exactly one outbound call carrying a fully
serialized body and suspends until the remote service answers, resuming
through the response handler (`request`). -/
inductive NetEffect (α : Type) where
  | abort (e : PushError) : NetEffect α
  | request (body : Json) (handler : Nat → Json → Except PushError α) :
      NetEffect α

/-- Run an effect against a stubbed service answering with the given
status code and response body.  An aborted effect never consults the
stub. -/
def NetEffect.run (e : NetEffect α) (status : Nat) (respBody : Json) :
    Except PushError α :=
  match e with
  | .abort err => .error err
  | .request _ handler => handler status respBody

/-- The diagnostic message the service supplied in the response body's
`error` field, when any. -/
def errorMessage : Json → String
  | .obj fs =>
    match getF fs "error" with
    | some (.str m) => m
    | _ => ""
  | _ => ""

/-- Modelled from the spec: handle a publish response — a 2xx status with
a `{ "publishId": … }` body resolves to a `PublishResponse`; a non-success
status fails with an `ApiError` carrying the status code and the message
the service supplied in the body's `error` field (§7, §8 scenarios). -/
def handlePublishResponse (status : Nat) (respBody : Json) :
    Except PushError PublishResponse :=
  if 200 ≤ status ∧ status < 300 then
    match respBody with
    | .obj fs =>
      match getF fs "publishId" with
      | some (.str id) => .ok ⟨id⟩
      | _ => .error (.transportError "unexpected response body")
    | _ => .error (.transportError "unexpected response body")
  else
    .error (.apiError status (errorMessage respBody))

/-- Modelled from the spec: handle a delete-user response — any 2xx status
resolves with no value; a non-success status fails with an `ApiError`
(§4.1 `deleteUser`, §7). -/
def handleDeleteResponse (status : Nat) (respBody : Json) :
    Except PushError Unit :=
  if 200 ≤ status ∧ status < 300 then .ok ()
  else .error (.apiError status (errorMessage respBody))

/-- Modelled from the spec: shared validated publish path (§4.1, §9 note
"two entry points, one validated code path").  Selector cardinality is
checked first, then the payload-shape invariant (at least one of
`apns`/`fcm`); only then is the body serialized and the single outbound
call issued.  `maxItems` is 100 for interests and 1000 for users. -/
def publishCore (selectorKey : String) (maxItems : Nat)
    (selector : List String) (r : RawPublishRequest) :
    NetEffect PublishResponse :=
  if selector.length = 0 ∨ selector.length > maxItems then
    .abort (.invalidArgument
      (selectorKey ++ " array must contain between 1 and items"))
  else if r.apns.isNone ∧ r.fcm.isNone then
    .abort (.invalidArgument
      "publish requests must have at least one of apns or fcm")
  else
    .request (serializeBody selectorKey selector r) handlePublishResponse

/-- Modelled from the spec: `publishToInterests(interests, publishRequest)`
(src/index.d.ts lines 210–213; spec §4.1): cardinality bound 1–100,
selector key `"interests"`. -/
def publishToInterests (_opts : Options) (interests : List String)
    (r : RawPublishRequest) : NetEffect PublishResponse :=
  publishCore "interests" 100 interests r

/-- Modelled from the spec: `publishToUsers(users, publishRequest)`
(src/index.d.ts lines 220–223; spec §4.1): cardinality bound 1–1000,
selector key `"users"`. -/
def publishToUsers (_opts : Options) (users : List String)
    (r : RawPublishRequest) : NetEffect PublishResponse :=
  publishCore "users" 1000 users r

/-- Modelled from the spec: the deprecated `publish` alias
(src/index.d.ts lines 237–240) — a pure delegation to
`publishToInterests` (§4.1, §9). -/
def publish (opts : Options) (interests : List String)
    (r : RawPublishRequest) : NetEffect PublishResponse :=
  publishToInterests opts interests r

/-- Modelled from the spec: `deleteUser(userId)` (src/index.d.ts line 229;
spec §4.1): an empty identifier is rejected locally with
`InvalidArgument`; otherwise one outbound call is issued (a delete
carries no request body) and a success status resolves with no value. -/
def deleteUser (_opts : Options) (userId : String) : NetEffect Unit :=
  if userId = "" then
    .abort (.invalidArgument "User ID cannot be empty")
  else
    .request .null handleDeleteResponse

/-! ## Token generation

Modelled from the spec: `generateToken` is a pure local computation over
the configured credentials; the signing primitive itself is external
(§1, §6) and is modelled here by a concrete stand-in: a digit-string MAC
over the secret key, the instance id and the user id, prefixed by the
issuing timestamp.  What matters for the claims is its interface shape —
the token is a non-empty string carrying a decodable authorization claim
naming exactly the requested user id, and distinct timestamps may yield
distinct bytes. -/

/-- The decimal digit character for `d % 10`. -/
def digitChar (d : Nat) : Char :=
  match d % 10 with
  | 0 => '0' | 1 => '1' | 2 => '2' | 3 => '3' | 4 => '4'
  | 5 => '5' | 6 => '6' | 7 => '7' | 8 => '8' | _ => '9'

/-- Decimal digits of `n`, most significant first, via explicit fuel. -/
def natDigitsAux : Nat → Nat → List Char
  | 0, _ => []
  | fuel + 1, n =>
    if n < 10 then [digitChar n]
    else natDigitsAux fuel (n / 10) ++ [digitChar (n % 10)]

/-- Decimal digits of `n`. -/
def natDigits (n : Nat) : List Char := natDigitsAux (n + 1) n

/-- Modelled from the spec: the stand-in signature — every character of
the key material and the claim mapped to a digit, prefixed by the
timestamp's digits.  Its only relevant properties are that it is a digit
string (so it contains no `.` separator) and that it depends on the
secret key, the instance id, the user id and the issuing time. -/
def signatureChars (opts : Options) (now : Nat) (userId : String) :
    List Char :=
  natDigits now ++
    (opts.secretKey ++ ":" ++ opts.instanceId ++ ":" ++ userId).data.map
      (fun c => digitChar c.toNat)

/-- Modelled from the spec: `generateToken(userId)` (src/index.d.ts line
203; spec §4.1): an empty user id fails with `InvalidArgument`; otherwise
the token is computed synchronously with no network call — the result is
an `Except`, not a `NetEffect`.  The token string is
`"v1." ++ signature ++ "." ++ userId`: the trailing component is the
authorization claim. -/
def generateToken (opts : Options) (now : Nat) (userId : String) :
    Except PushError Token :=
  if userId = "" then
    .error (.invalidArgument "userId cannot be the empty string")
  else
    .ok (String.mk ('v' :: '1' :: '.' ::
      (signatureChars opts now userId ++ '.' :: userId.data)))

/-- Drop characters up to and including the first `'.'`; `none` when no
`'.'` occurs. -/
def dropThroughDot : List Char → Option (List Char)
  | [] => none
  | c :: cs => if c = '.' then some cs else dropThroughDot cs

/-- Decode the authorization claim of a token: the user id is everything
after the second `.` separator. -/
def decodeTokenUserId (t : Token) : Option String :=
  match dropThroughDot (String.data t) with
  | none => none
  | some rest =>
    match dropThroughDot rest with
    | none => none
    | some claim => some (String.mk claim)

/-! ## Round-trip lemmas -/

/-- Parsing a serialized string array recovers it. -/
theorem parseStrList_map_str (xs : List String) :
    parseStrList (xs.map Json.str) = some xs := by
  induction xs with
  | nil => rfl
  | cons x xs ih => simp [parseStrList, ih]

/-- Parsing a serialized `AlertPayload` recovers it. -/
theorem parseAlert_serializeAlert (a : AlertPayload) :
    parseAlert (serializeAlert a) = some a := by
  obtain ⟨t, b, tlk, tla, alk, lk, la, li⟩ := a
  rcases tlk with _ | tlk <;> rcases tla with _ | (_ | tla) <;>
    rcases alk with _ | (_ | alk) <;> rcases lk with _ | lk <;>
    rcases la with _ | la <;> rcases li with _ | li <;>
    simp [serializeAlert, parseAlert, optStrField, optNullableField,
      optStrListField, optField, getF, parseOptStr, parseOptStrList,
      parseOptStrOrNull, parseOptStrListOrNull, parseStrList_map_str]

/-- Parsing a serialized `alert` field recovers it, for the string variant
and the structured variant alike. -/
theorem parseAlertField_serializeAlertField (v : String ⊕ AlertPayload) :
    parseAlertField (serializeAlertField v) = some v := by
  rcases v with s | a
  · rfl
  · show (parseAlert (serializeAlert a)).map Sum.inr = some (Sum.inr a)
    rw [parseAlert_serializeAlert]
    rfl

/-- Parsing a serialized `ApsPayload` recovers it. -/
theorem parseAps_serializeAps (p : ApsPayload) :
    parseAps (serializeAps p) = some p := by
  obtain ⟨al, ba, so, ca, cat, tid⟩ := p
  rcases al with _ | al <;> rcases ba with _ | ba <;>
    rcases so with _ | so <;> rcases ca with _ | ca <;>
    rcases cat with _ | cat <;> rcases tid with _ | tid <;>
    simp [serializeAps, parseAps, optStrField, optField, getF,
      parseOptStr, parseAlertField_serializeAlertField]

/-- Parsing a serialized `ApnsPayload` recovers it. -/
theorem parseApns_serializeApns (p : ApnsPayload) :
    parseApns (serializeApns p) = some p := by
  obtain ⟨aps⟩ := p
  simp [serializeApns, parseApns, getF, parseAps_serializeAps]

/-- Parsing the `apns` component of a serialized publish body recovers
the request's `apns` payload exactly — present payloads round-trip to
equal payloads and an absent payload stays absent. -/
theorem parseBodyApns_serializeBody (selectorKey : String)
    (selector : List String) (r : RawPublishRequest)
    (hk : selectorKey ≠ "apns") :
    parseBodyApns (serializeBody selectorKey selector r) = some r.apns := by
  obtain ⟨w, apns, fcm⟩ := r
  rcases apns with _ | apns <;> rcases fcm with _ | fcm <;>
    rcases w with _ | w <;>
    simp [serializeBody, parseBodyApns, optField, optStrField, getF, hk,
      parseApns_serializeApns]

/-! ## Token lemmas -/

/-- `digitChar` never produces the `.` separator. -/
theorem digitChar_ne_dot (d : Nat) : digitChar d ≠ '.' := by
  unfold digitChar
  split <;> decide

/-- Every character `natDigitsAux` produces is a digit, never `.`. -/
theorem natDigitsAux_ne_dot (fuel n : Nat) :
    ∀ c ∈ natDigitsAux fuel n, c ≠ '.' := by
  induction fuel generalizing n with
  | zero => intro c hc; simp [natDigitsAux] at hc
  | succ fuel ih =>
    intro c hc
    unfold natDigitsAux at hc
    by_cases h : n < 10
    · rw [if_pos h] at hc
      simp at hc
      exact hc ▸ digitChar_ne_dot n
    · rw [if_neg h] at hc
      rcases List.mem_append.mp hc with h1 | h1
      · exact ih _ c h1
      · simp at h1
        exact h1 ▸ digitChar_ne_dot (n % 10)

/-- The signature never contains the `.` separator. -/
theorem signatureChars_ne_dot (opts : Options) (now : Nat) (userId : String) :
    ∀ c ∈ signatureChars opts now userId, c ≠ '.' := by
  intro c hc
  rcases List.mem_append.mp hc with h1 | h1
  · exact natDigitsAux_ne_dot _ _ c h1
  · obtain ⟨x, _, hx⟩ := List.mem_map.mp h1
    exact hx ▸ digitChar_ne_dot x.toNat

/-- `dropThroughDot` consumes a dot-free run up to the first `.`. -/
theorem dropThroughDot_append (l r : List Char) (h : ∀ c ∈ l, c ≠ '.') :
    dropThroughDot (l ++ '.' :: r) = some r := by
  induction l with
  | nil => simp [dropThroughDot]
  | cons c cs ih =>
    have hc : c ≠ '.' := h c (List.mem_cons_self c cs)
    simp only [List.cons_append, dropThroughDot, if_neg hc]
    exact ih fun x hx => h x (List.mem_cons_of_mem c hx)

/-- Rebuilding a string from its characters is the identity. -/
theorem string_mk_data (s : String) : String.mk s.data = s := rfl

/-! ## Concrete fixtures used in scenario claims -/

/-- A concrete configuration. -/
def demoOptions : Options := { instanceId := "instance", secretKey := "secret" }

/-- The request `{ apns: { aps: { alert: "Hi" } } }` of the spec's
scenarios. -/
def hiRequest : RawPublishRequest :=
  { apns := some ⟨{ alert := some (.inl "Hi") }⟩ }

/-- A request carrying neither `apns` nor `fcm`. -/
def emptyRequest : RawPublishRequest := {}

/-! ## Claims -/

/-- C1: every value of the `PublishRequest` union contains at least one of
the `apns` and `fcm` payloads, and for every runtime request object
containing neither, the builder fails with `InvalidArgument` before any
transmission (the result is an `abort`, issued before any `request`
effect). -/
theorem publishRequest_union_invariant (r : PublishRequest) (opts : Options)
    (interests users : List String) (raw : RawPublishRequest)
    (h1 : raw.apns = none) (h2 : raw.fcm = none) :
    (r.toRaw.apns.isSome ∨ r.toRaw.fcm.isSome) ∧
    (∃ m, publishToInterests opts interests raw =
      .abort (.invalidArgument m)) ∧
    (∃ m, publishToUsers opts users raw = .abort (.invalidArgument m)) := by
  refine ⟨?_, ?_, ?_⟩
  · cases r <;> simp [PublishRequest.toRaw]
  · by_cases hlen : interests.length = 0 ∨ interests.length > 100
    · exact ⟨_, by rw [publishToInterests, publishCore, if_pos hlen]⟩
    · exact ⟨_, by rw [publishToInterests, publishCore, if_neg hlen,
        if_pos ⟨by simp [h1], by simp [h2]⟩]⟩
  · by_cases hlen : users.length = 0 ∨ users.length > 1000
    · exact ⟨_, by rw [publishToUsers, publishCore, if_pos hlen]⟩
    · exact ⟨_, by rw [publishToUsers, publishCore, if_neg hlen,
        if_pos ⟨by simp [h1], by simp [h2]⟩]⟩

/-- Witness for C1 at a concrete union value and the empty raw request. -/
theorem publishRequest_union_invariant_witness :
    ((PublishRequest.withApns none ⟨{}⟩).toRaw.apns.isSome ∨
      (PublishRequest.withApns none ⟨{}⟩).toRaw.fcm.isSome) ∧
    (∃ m, publishToInterests demoOptions ["interest-1"] emptyRequest =
      .abort (.invalidArgument m)) ∧
    (∃ m, publishToUsers demoOptions ["user-1"] emptyRequest =
      .abort (.invalidArgument m)) :=
  publishRequest_union_invariant (.withApns none ⟨{}⟩) demoOptions
    ["interest-1"] ["user-1"] emptyRequest rfl rfl

/-- C2: for every `interests` array of length 0 or above 100,
`publishToInterests` aborts with `InvalidArgument` — no `request` effect
is produced, so no network call is performed. -/
theorem publishToInterests_cardinality (opts : Options)
    (interests : List String) (raw : RawPublishRequest)
    (h : interests.length = 0 ∨ interests.length > 100) :
    ∃ m, publishToInterests opts interests raw =
      .abort (.invalidArgument m) :=
  ⟨_, by rw [publishToInterests, publishCore, if_pos h]⟩

/-- Witness for C2 at the empty interests array. -/
theorem publishToInterests_cardinality_witness :
    ∃ m, publishToInterests demoOptions [] hiRequest =
      .abort (.invalidArgument m) :=
  publishToInterests_cardinality demoOptions [] hiRequest (by decide)

/-- C3: for every `users` array of length 0 or above 1000,
`publishToUsers` aborts with `InvalidArgument` — no `request` effect is
produced, so no network call is performed. -/
theorem publishToUsers_cardinality (opts : Options) (users : List String)
    (raw : RawPublishRequest)
    (h : users.length = 0 ∨ users.length > 1000) :
    ∃ m, publishToUsers opts users raw = .abort (.invalidArgument m) :=
  ⟨_, by rw [publishToUsers, publishCore, if_pos h]⟩

/-- Witness for C3 at the empty users array. -/
theorem publishToUsers_cardinality_witness :
    ∃ m, publishToUsers demoOptions [] hiRequest =
      .abort (.invalidArgument m) :=
  publishToUsers_cardinality demoOptions [] hiRequest (by decide)

/-- C4: `generateToken ""` fails with `InvalidArgument`; for every
non-empty `userId` it returns — synchronously, as a plain `Except` with
no `NetEffect` — a non-empty signed string whose decoded authorization
claim is exactly that `userId`.  The issuing time `now` may vary between
calls, so the returned bytes need not be identical across calls. -/
theorem generateToken_spec (opts : Options) (now : Nat) (userId : String)
    (h : userId ≠ "") :
    (∃ m, generateToken opts now "" = .error (.invalidArgument m)) ∧
    ∃ t, generateToken opts now userId = .ok t ∧ t ≠ "" ∧
      decodeTokenUserId t = some userId := by
  refine ⟨⟨_, rfl⟩, String.mk ('v' :: '1' :: '.' ::
    (signatureChars opts now userId ++ '.' :: userId.data)), ?_, ?_, ?_⟩
  · rw [generateToken, if_neg h]
  · intro hempty
    have : ('v' :: '1' :: '.' ::
        (signatureChars opts now userId ++ '.' :: userId.data)) =
        ([] : List Char) := congrArg String.data hempty
    simp at this
  · show (match dropThroughDot
        (signatureChars opts now userId ++ '.' :: userId.data) with
      | none => none
      | some claim => some (String.mk claim)) = some userId
    rw [dropThroughDot_append _ _ (signatureChars_ne_dot opts now userId)]

/-- Witness for C4 at `userId = "alice"`. -/
theorem generateToken_spec_witness :
    (∃ m, generateToken demoOptions 0 "" = .error (.invalidArgument m)) ∧
    ∃ t, generateToken demoOptions 0 "alice" = .ok t ∧ t ≠ "" ∧
      decodeTokenUserId t = some "alice" :=
  generateToken_spec demoOptions 0 "alice" (by decide)

/-- C5: the spec's stub scenarios — publishing `hiRequest` to
`["interest-1"]` against a service answering 200 with
`{ "publishId": "pub-123" }` resolves to `{ publishId := "pub-123" }`,
and against a service answering 422 with `{ "error": "bad payload" }`
fails with an `ApiError` carrying code 422 and message "bad payload". -/
theorem publishToInterests_scenario :
    NetEffect.run (publishToInterests demoOptions ["interest-1"] hiRequest)
      200 (.obj [("publishId", .str "pub-123")]) = .ok ⟨"pub-123"⟩ ∧
    NetEffect.run (publishToInterests demoOptions ["interest-1"] hiRequest)
      422 (.obj [("error", .str "bad payload")]) =
      .error (.apiError 422 "bad payload") :=
  ⟨rfl, rfl⟩

/-- C6: serializing any publish request body (under either selector key)
and parsing it back preserves the `apns` payload exactly — in particular
`apns.aps.alert` round-trips verbatim, for the plain-string variant and
the structured `AlertPayload` variant alike. -/
theorem serialize_parse_preserves_alert (interests users : List String)
    (raw : RawPublishRequest) :
    parseBodyApns (serializeBody "interests" interests raw) =
      some raw.apns ∧
    parseBodyApns (serializeBody "users" users raw) = some raw.apns ∧
    (parseBodyApns (serializeBody "interests" interests raw)).map
        (Option.map fun p => p.aps.alert) =
      some (raw.apns.map fun p => p.aps.alert) := by
  have h1 := parseBodyApns_serializeBody "interests" interests raw
    (by decide)
  have h2 := parseBodyApns_serializeBody "users" users raw (by decide)
  exact ⟨h1, h2, by rw [h1]; rfl⟩

/-- C7: `deleteUser` rejects the empty user id with `InvalidArgument`,
and for a non-empty user id a successful (2xx) service response resolves
with no value. -/
theorem deleteUser_spec (opts : Options) (userId : String) (status : Nat)
    (respBody : Json) (h : userId ≠ "") (h2 : 200 ≤ status)
    (h3 : status < 300) :
    (∃ m, deleteUser opts "" = .abort (.invalidArgument m)) ∧
    NetEffect.run (deleteUser opts userId) status respBody = .ok () := by
  refine ⟨⟨_, rfl⟩, ?_⟩
  rw [deleteUser, if_neg h]
  show handleDeleteResponse status respBody = .ok ()
  rw [handleDeleteResponse, if_pos ⟨h2, h3⟩]

/-- Witness for C7: `deleteUser "bob"` against a stub answering 200 with
an empty body resolves with no value. -/
theorem deleteUser_spec_witness :
    (∃ m, deleteUser demoOptions "" = .abort (.invalidArgument m)) ∧
    NetEffect.run (deleteUser demoOptions "bob") 200 (.obj []) = .ok () :=
  deleteUser_spec demoOptions "bob" 200 (.obj []) (by decide) (by decide)
    (by decide)

/-- C8: the deprecated `publish` is a pure delegation to
`publishToInterests` — for every configuration, interests array and
request, the two produce the same effect, hence the same success value or
failure kind on the same inputs. -/
theorem publish_delegates (opts : Options) (interests : List String)
    (raw : RawPublishRequest) :
    publish opts interests raw = publishToInterests opts interests raw :=
  rfl

/-- Whenever the validated publish path emits a `request` effect, both
validations have passed and the transmitted body is the complete
serialization of the inputs. -/
theorem publishCore_request_inv (selectorKey : String) (maxItems : Nat)
    (selector : List String) (raw : RawPublishRequest) (b : Json)
    (k : Nat → Json → Except PushError PublishResponse)
    (h : publishCore selectorKey maxItems selector raw = .request b k) :
    (1 ≤ selector.length ∧ selector.length ≤ maxItems) ∧
    (raw.apns.isSome ∨ raw.fcm.isSome) ∧
    b = serializeBody selectorKey selector raw := by
  rw [publishCore] at h
  by_cases hlen : selector.length = 0 ∨ selector.length > maxItems
  · rw [if_pos hlen] at h
    exact absurd h (by simp)
  · rw [if_neg hlen] at h
    by_cases hpay : raw.apns.isNone ∧ raw.fcm.isNone
    · rw [if_pos hpay] at h
      exact absurd h (by simp)
    · rw [if_neg hpay] at h
      injection h with hb _
      push_neg at hlen
      refine ⟨⟨by omega, by omega⟩, ?_, hb.symm⟩
      rcases ha : raw.apns with _ | a
      · rcases hf : raw.fcm with _ | f
        · exact absurd ⟨by simp [ha], by simp [hf]⟩ hpay
        · exact Or.inr (by simp [hf])
      · exact Or.inl (by simp [ha])

/-- C9: validation precedes serialization and serialization precedes the
outbound call — whenever `publishToInterests` or `publishToUsers`
actually emits a `request` effect, the cardinality bound and the
payload-shape invariant already hold, and the transmitted body is exactly
the full serialization of the validated inputs; a partially built request
is never sent. -/
theorem validation_precedes_transmission (opts : Options)
    (interests users : List String) (raw : RawPublishRequest)
    (b b2 : Json) (k k2 : Nat → Json → Except PushError PublishResponse) :
    (publishToInterests opts interests raw = .request b k →
      (1 ≤ interests.length ∧ interests.length ≤ 100) ∧
      (raw.apns.isSome ∨ raw.fcm.isSome) ∧
      b = serializeBody "interests" interests raw) ∧
    (publishToUsers opts users raw = .request b2 k2 →
      (1 ≤ users.length ∧ users.length ≤ 1000) ∧
      (raw.apns.isSome ∨ raw.fcm.isSome) ∧
      b2 = serializeBody "users" users raw) :=
  ⟨fun h => publishCore_request_inv "interests" 100 interests raw b k h,
   fun h => publishCore_request_inv "users" 1000 users raw b2 k2 h⟩

/-- Witness for C9 at concrete publishes that do emit a request. -/
theorem validation_precedes_transmission_witness :
    ((1 ≤ (["interest-1"] : List String).length ∧
        (["interest-1"] : List String).length ≤ 100) ∧
      (hiRequest.apns.isSome ∨ hiRequest.fcm.isSome) ∧
      serializeBody "interests" ["interest-1"] hiRequest =
        serializeBody "interests" ["interest-1"] hiRequest) ∧
    ((1 ≤ (["user-1"] : List String).length ∧
        (["user-1"] : List String).length ≤ 1000) ∧
      (hiRequest.apns.isSome ∨ hiRequest.fcm.isSome) ∧
      serializeBody "users" ["user-1"] hiRequest =
        serializeBody "users" ["user-1"] hiRequest) :=
  ⟨(validation_precedes_transmission demoOptions ["interest-1"] ["user-1"]
      hiRequest (serializeBody "interests" ["interest-1"] hiRequest)
      (serializeBody "users" ["user-1"] hiRequest) handlePublishResponse
      handlePublishResponse).1 rfl,
   (validation_precedes_transmission demoOptions ["interest-1"] ["user-1"]
      hiRequest (serializeBody "interests" ["interest-1"] hiRequest)
      (serializeBody "users" ["user-1"] hiRequest) handlePublishResponse
      handlePublishResponse).2 rfl⟩

/-- C10: at the public interface, `AlertPayload` requires string `title`
and `body`, accepts an explicit `null` (distinct from absence) for
`title-loc-args` and `action-loc-key`, and rejects `null` for
`title-loc-key`, `loc-key`, `loc-args` and `launch-image`, which admit
only their stated string/array types or absence. -/
theorem alertPayload_nullability :
    parseAlert (.obj [("title", .str "t"), ("body", .str "b")]) =
      some { title := "t", body := "b" } ∧
    parseAlert (.obj [("title", .str "t"), ("body", .str "b"),
        ("title-loc-args", .null)]) =
      some { title := "t", body := "b", titleLocArgs := some none } ∧
    parseAlert (.obj [("title", .str "t"), ("body", .str "b"),
        ("title-loc-args", .arr [.str "x"])]) =
      some { title := "t", body := "b", titleLocArgs := some (some ["x"]) } ∧
    parseAlert (.obj [("title", .str "t"), ("body", .str "b"),
        ("action-loc-key", .null)]) =
      some { title := "t", body := "b", actionLocKey := some none } ∧
    parseAlert (.obj [("title", .str "t"), ("body", .str "b"),
        ("action-loc-key", .str "v")]) =
      some { title := "t", body := "b", actionLocKey := some (some "v") } ∧
    parseAlert (.obj [("title", .str "t"), ("body", .str "b"),
        ("loc-args", .null)]) = none ∧
    parseAlert (.obj [("title", .str "t"), ("body", .str "b"),
        ("loc-args", .arr [.str "x"])]) =
      some { title := "t", body := "b", locArgs := some ["x"] } ∧
    parseAlert (.obj [("title", .str "t"), ("body", .str "b"),
        ("title-loc-key", .null)]) = none ∧
    parseAlert (.obj [("title", .str "t"), ("body", .str "b"),
        ("loc-key", .null)]) = none ∧
    parseAlert (.obj [("title", .str "t"), ("body", .str "b"),
        ("launch-image", .null)]) = none ∧
    parseAlert (.obj [("body", .str "b")]) = none ∧
    parseAlert (.obj [("title", .str "t")]) = none ∧
    parseAlert (.obj [("title", .num 3), ("body", .str "b")]) = none ∧
    parseAlert (.obj [("title", .str "t"), ("body", .null)]) = none :=
  ⟨rfl, rfl, rfl, rfl, rfl, rfl, rfl, rfl, rfl, rfl, rfl, rfl, rfl, rfl⟩

end PushNotifications
